import Mathlib

/-!
Shallow embedding of the RTSP connection core of `nschimme/go2rtc`:

* `pkg/rtsp/producer.go` — `Conn.GetTrack`, `Conn.Start`, `Conn.Stop`,
  `Conn.Reconnect`;
* `internal/streams/config.go` — `GetBackchannelInactivityTimeout`.

The external transport/media collaborators (`Dial`, `Describe`, `SetupMedia`,
`Play`, `Close`, `Handle`, `Fire`, the `core` media model) are modelled as an
environment of scripted results; every function additionally returns the
ordered trace of external calls it performed, so ordering and call-count
properties can be stated.
-/

namespace Rtsp

/-- Track direction of the external `core` media model.  In the Go source the
direction constants are the strings "recvonly" / "sendonly" / "sendrecv". -/
inductive Direction where
  | DirectionRecvonly
  | DirectionSendonly
  | DirectionSendrecv
deriving DecidableEq, Repr

/-- The string value of a direction constant of the external `core` package
(directions are string constants in the source). -/
def Direction.str : Direction → String
  | .DirectionRecvonly => "recvonly"
  | .DirectionSendonly => "sendonly"
  | .DirectionSendrecv => "sendrecv"

/-- Connection role (`core.Mode`), fixed at construction. -/
inductive Mode where
  | ModeActiveProducer
  | ModePassiveProducer
  | ModePassiveConsumer
deriving DecidableEq, Repr

/-- Modelled from the spec: `core.Mode.String()` of the external `core`
package (used only inside error messages). -/
def Mode.str : Mode → String
  | .ModeActiveProducer => "active producer"
  | .ModePassiveProducer => "passive producer"
  | .ModePassiveConsumer => "passive consumer"

/-- Connection state constants `StateNone`, `StateConn`, `StateSetup`,
`StatePlay` of `pkg/rtsp`. -/
inductive ConnState where
  | StateNone
  | StateConn
  | StateSetup
  | StatePlay
deriving DecidableEq, Repr

/-- Modelled from the spec: the external `core.Codec`; codec negotiation
details are an out-of-scope collaborator, so a codec is reduced to an
abstract name. -/
structure Codec where
  name : String
deriving DecidableEq, Repr

/-- Modelled from the spec: `core.Codec.Match` — codec compatibility of the
external media model, modelled as equality of the abstract codec name. -/
def Codec.matches (a b : Codec) : Bool := a.name == b.name

/-- Modelled from the spec: the external `core.Media`.  The Go code compares
media by pointer identity (`track.Media == media`); the `ident` tag stands
for that object identity, so two distinct Media objects carry distinct tags.
Only `direction` is otherwise consulted by this core. -/
structure Media where
  ident : Nat
  direction : Direction
deriving DecidableEq, Repr

/-- The core's handle to one negotiated media channel (`core.Receiver`).
`id` is the interleaved channel number (a `byte` in Go). -/
structure Receiver where
  media : Media
  codec : Codec
  id : Nat
deriving DecidableEq, Repr

/-- `core.NewReceiver(media, codec)`: a fresh receiver with zero channel id
(the caller assigns `ID` afterwards). -/
def NewReceiver (media : Media) (codec : Codec) : Receiver :=
  { media := media, codec := codec, id := 0 }

/-- An outbound track (`core.Sender`); this core reads only its `Media`
reference (for `Reconnect` replay) and closes it in `Stop`. -/
structure Sender where
  media : Media
deriving DecidableEq, Repr

/-- The `rtsp.Conn` fields this core reads or writes: role, state and the two
track registries. -/
structure Conn where
  mode : Mode
  state : ConnState
  receivers : List Receiver
  senders : List Sender
deriving DecidableEq, Repr

/-- One external call performed by the core, recorded in order in a trace. -/
inductive Call where
  | fire (event : String)
  | close
  | dial
  | describe
  | setupMedia (m : Media)
  | play
  | handle
  | closeReceiver (t : Receiver)
  | closeSender (t : Sender)
deriving DecidableEq, Repr

/-- Whether a traced call is a `SetupMedia` invocation. -/
def Call.isSetupMedia : Call → Bool
  | .setupMedia _ => true
  | _ => false

/-- Number of `SetupMedia` invocations in a trace. -/
def countSetup (τ : List Call) : Nat := (τ.filter Call.isSetupMedia).length

/-- Environment of scripted results for the external transport primitives.
`setupMedia` models the Go `SetupMedia(media) (byte, error)`: instantiations
corresponding to the Go program return channel values below 256. -/
structure Env where
  setupMedia : Media → Except String Nat
  dial : Except String Unit
  describe : Except String Unit
  close : Except String Unit
  play : Except String Unit

/-- The receiver/sender replay loops of `Reconnect`: call `SetupMedia` for
each media in order, aborting on the first error and leaving the later
entries un-attempted. -/
def setupAll (env : Env) : List Media → Except String Unit × List Call
  | [] => (.ok (), [])
  | m :: ms =>
    match env.setupMedia m with
    | .error e => (.error e, [.setupMedia m])
    | .ok _ =>
      let r := setupAll env ms
      (r.1, .setupMedia m :: r.2)

/-- `Conn.Reconnect` of `pkg/rtsp/producer.go`: Fire the lifecycle event,
close the current session ignoring its error, Dial, Describe, then replay
`SetupMedia` for every receiver and then every sender, each step aborting on
its first error.  No `Conn` field is ever written, so the connection is
returned as received. -/
def Reconnect (env : Env) (c : Conn) : Except String Unit × Conn × List Call :=
  let pre : List Call := [.fire "RTSP reconnect", .close]
  match env.dial with
  | .error e => (.error e, c, pre ++ [.dial])
  | .ok _ =>
    match env.describe with
    | .error e => (.error e, c, pre ++ [.dial, .describe])
    | .ok _ =>
      match setupAll env (c.receivers.map (fun t => t.media)) with
      | (.error e, τ) => (.error e, c, pre ++ [.dial, .describe] ++ τ)
      | (.ok _, τ) =>
        match setupAll env (c.senders.map (fun s => s.media)) with
        | (.error e, τ2) => (.error e, c, pre ++ [.dial, .describe] ++ τ ++ τ2)
        | (.ok _, τ2) => (.ok (), c, pre ++ [.dial, .describe] ++ τ ++ τ2)

/-- The common tail of `GetTrack` after the mode switch: any direction other
than Recvonly is rejected with the internal-logic error; a Recvonly media
gets a new `Receiver` with the allocated channel appended to `receivers`. -/
def getTrackTail (c : Conn) (media : Media) (codec : Codec) (channel : Nat)
    (τ : List Call) : Except String Receiver × Conn × List Call :=
  if media.direction ≠ .DirectionRecvonly then
    (.error ("rtsp: GetTrack internal logic error for mode/direction: "
        ++ c.mode.str ++ "/" ++ media.direction.str), c, τ)
  else
    let track := { NewReceiver media codec with id := channel }
    (.ok track, { c with receivers := c.receivers ++ [track] }, τ)

/-- `Conn.GetTrack` of `pkg/rtsp/producer.go`.  Fast path: a Recvonly media
already cached in `receivers` (same Media identity, compatible codec) is
returned unchanged.  Otherwise, under the lock: ActiveProducer reconnects
first when in `StatePlay`, performs `SetupMedia`, moves to `StateSetup`, and
returns a Sendonly track unregistered; PassiveConsumer allocates
`byte(len(receivers)*2)` for Recvonly or `byte(len(senders))*2` otherwise;
any other mode is rejected.  The tail registers Recvonly tracks. -/
def GetTrack (env : Env) (c : Conn) (media : Media) (codec : Codec) :
    Except String Receiver × Conn × List Call :=
  match (if media.direction = .DirectionRecvonly
         then c.receivers.find? (fun t => t.media == media && t.codec.matches codec)
         else none) with
  | some t => (.ok t, c, [])
  | none =>
    match c.mode with
    | .ModeActiveProducer =>
      let rec1 : Except String Unit × Conn × List Call :=
        if c.state = .StatePlay then Reconnect env c else (.ok (), c, [])
      match rec1 with
      | (.error e, c1, τ1) => (.error e, c1, τ1)
      | (.ok _, c1, τ1) =>
        match env.setupMedia media with
        | .error e => (.error e, c1, τ1 ++ [.setupMedia media])
        | .ok channel =>
          let c2 := { c1 with state := .StateSetup }
          if media.direction = .DirectionSendonly then
            (.ok { NewReceiver media codec with id := channel }, c2,
             τ1 ++ [.setupMedia media])
          else
            getTrackTail c2 media codec channel (τ1 ++ [.setupMedia media])
    | .ModePassiveConsumer =>
      let channel : Nat :=
        if media.direction = .DirectionRecvonly then
          (c.receivers.length * 2) % 256
        else
          ((c.senders.length % 256) * 2) % 256
      getTrackTail c media codec channel []
    | .ModePassiveProducer =>
      (.error ("rtsp: wrong mode for GetTrack: " ++ c.mode.str), c, [])

/-- A sequence of `GetTrack` calls for one Media, threading the connection
and concatenating the call traces. -/
def getTrackSeq (env : Env) (media : Media) :
    Conn → List Codec → List (Except String Receiver) × Conn × List Call
  | c, [] => ([], c, [])
  | c, k :: ks =>
    let r := GetTrack env c media k
    let rest := getTrackSeq env media r.2.1 ks
    (r.1 :: rest.1, rest.2.1, r.2.2 ++ rest.2.2)

/-- The `for` loop of `Conn.Start`.  Each iteration inspects `state` under
the lock; only a successful `StateSetup → StatePlay` transition continues
into the blocking `Handle` call, whose scripted outcome gives its returned
error and the state it leaves behind.  At `StatePlay` the `switch` has no
matching case, so the previous error (`nil` on entry) is returned untouched.
An exhausted script models `Handle` blocking forever and is cut off with a
distinguished error. -/
def startLoop (env : Env) (script : List (Except String Unit × ConnState))
    (c : Conn) (prevErr : Except String Unit) :
    Except String Unit × Conn × List Call :=
  match c.state with
  | .StateNone => (.ok (), c, [])
  | .StateConn => (.error "start from CONN state", c, [])
  | .StatePlay => (prevErr, c, [])
  | .StateSetup =>
    match (match c.mode with
           | .ModeActiveProducer => (env.play, [Call.play])
           | .ModePassiveProducer => ((.ok () : Except String Unit), [])
           | .ModePassiveConsumer =>
             ((.error ("start from wrong mode: " ++ c.mode.str)
                 : Except String Unit), [])) with
    | (.error e, τ) => (.error e, c, τ)
    | (.ok _, τ) =>
      match script with
      | [] => (.error "handle: unscripted", { c with state := .StatePlay },
               τ ++ [Call.handle])
      | (r, s2) :: rest =>
        let res := startLoop env rest { c with state := s2 } r
        (res.1, res.2.1, τ ++ Call.handle :: res.2.2)

/-- `Conn.Start` of `pkg/rtsp/producer.go`.  The leading
`core.Assert(c.mode == ModeActiveProducer || c.mode == ModePassiveProducer)`
is modelled from the spec (the external `core.Assert` fails fast on a
violated entry contract); then the loop runs with the zero-value `err`. -/
def Start (env : Env) (c : Conn) (script : List (Except String Unit × ConnState)) :
    Except String Unit × Conn × List Call :=
  if c.mode = .ModePassiveConsumer then
    (.error "assert failed: Start entry mode", c, [])
  else
    startLoop env script c (.ok ())

/-- `Conn.Stop` of `pkg/rtsp/producer.go`: close every receiver then every
sender in registration order, then under the lock, when `state != StateNone`,
move to `StateNone` and close the transport, returning its error; otherwise
return the zero-value `nil` error. -/
def Stop (env : Env) (c : Conn) : Except String Unit × Conn × List Call :=
  let closes : List Call :=
    c.receivers.map Call.closeReceiver ++ c.senders.map Call.closeSender
  if c.state ≠ .StateNone then
    (env.close, { c with state := .StateNone }, closes ++ [.close])
  else
    (.ok (), c, closes)

end Rtsp

namespace Streams

/-- The `backchannel:` section of the package-level `CFG` of
`internal/streams/config.go`. -/
structure BackchannelCFG where
  inactivityTimeout : Int
deriving DecidableEq, Repr

/-- The package-level configuration `CFG` of `internal/streams/config.go`;
the Go `time.Duration` (int64 nanoseconds) is modelled as `Int`. -/
structure CFG where
  backchannel : BackchannelCFG
deriving DecidableEq, Repr

/-- `DefaultBackchannelInactivityTimeout` of `internal/streams/config.go`. -/
def DefaultBackchannelInactivityTimeout : Int := 0

/-- `GetBackchannelInactivityTimeout` of `internal/streams/config.go`:
return the configured value when positive, otherwise return the configured
value itself. -/
def GetBackchannelInactivityTimeout (cfg : CFG) : Int :=
  if cfg.backchannel.inactivityTimeout > 0 then
    cfg.backchannel.inactivityTimeout
  else
    cfg.backchannel.inactivityTimeout

end Streams

namespace Rtsp

/-- A concrete Recvonly media object (identity tag 1). -/
def mediaRecv : Media := ⟨1, .DirectionRecvonly⟩

/-- A concrete Sendonly media object (identity tag 2). -/
def mediaSend : Media := ⟨2, .DirectionSendonly⟩

/-- A concrete codec. -/
def codecPCMU : Codec := ⟨"PCMU"⟩

/-- Environment in which every transport primitive succeeds; `SetupMedia`
always assigns channel 4. -/
def envAllOk : Env :=
  { setupMedia := fun _ => .ok 4, dial := .ok (), describe := .ok (),
    close := .ok (), play := .ok () }

/-- Environment in which `Dial` fails. -/
def envNoDial : Env :=
  { setupMedia := fun _ => .ok 4, dial := .error "dial failed",
    describe := .ok (), close := .ok (), play := .ok () }

/-- Environment in which `Describe` fails. -/
def envNoDescribe : Env :=
  { setupMedia := fun _ => .ok 4, dial := .ok (),
    describe := .error "describe failed", close := .ok (), play := .ok () }

/-- Environment in which the transport `Close` fails. -/
def envCloseErr : Env :=
  { setupMedia := fun _ => .ok 4, dial := .ok (), describe := .ok (),
    close := .error "close failed", play := .ok () }

/-- Environment in which `SetupMedia` fails exactly on the media with
identity tag 2 and otherwise assigns channel 6. -/
def envSetupFail : Env :=
  { setupMedia := fun m => if m.ident = 2 then .error "setup failed" else .ok 6,
    dial := .ok (), describe := .ok (), close := .ok (), play := .ok () }

/-- A concrete registered receiver (media identity tag 0). -/
def recv0 : Receiver := ⟨⟨0, .DirectionRecvonly⟩, ⟨"PCMA"⟩, 0⟩

/-- A concrete registered sender (media identity tag 5). -/
def sender5 : Sender := ⟨⟨5, .DirectionSendonly⟩⟩

/-- A PassiveConsumer connection whose receiver registry already holds 128
entries. -/
def conn128 : Conn :=
  ⟨.ModePassiveConsumer, .StateNone, List.replicate 128 recv0, []⟩

/-- An ActiveProducer connection in `StatePlay` with two receivers (media
tags 1 and 2) and one sender (media tag 3). -/
def connPlay2 : Conn :=
  ⟨.ModeActiveProducer, .StatePlay,
   [⟨⟨1, .DirectionRecvonly⟩, ⟨"PCMU"⟩, 0⟩, ⟨⟨2, .DirectionRecvonly⟩, ⟨"PCMU"⟩, 2⟩],
   [⟨⟨3, .DirectionSendonly⟩⟩]⟩

end Rtsp

/-- C4 (amended): `GetBackchannelInactivityTimeout` returns the configured
value when it is positive, returns zero when the configured value is zero
(or unset), and returns the configured negative value unchanged when it is
negative. -/
theorem claimC4_timeout_resolution (cfg : Streams.CFG) :
    (0 < cfg.backchannel.inactivityTimeout →
      Streams.GetBackchannelInactivityTimeout cfg = cfg.backchannel.inactivityTimeout) ∧
    (cfg.backchannel.inactivityTimeout = 0 →
      Streams.GetBackchannelInactivityTimeout cfg = 0) ∧
    (cfg.backchannel.inactivityTimeout < 0 →
      Streams.GetBackchannelInactivityTimeout cfg = cfg.backchannel.inactivityTimeout) := by
  unfold Streams.GetBackchannelInactivityTimeout
  refine ⟨fun _ => ?_, fun h0 => ?_, fun _ => ?_⟩ <;> rw [ite_self]
  exact h0

/-- C4 witness: the resolution at a positive, a zero and a negative
configured value. -/
theorem claimC4_witness :
    Streams.GetBackchannelInactivityTimeout ⟨⟨5⟩⟩ = 5 ∧
    Streams.GetBackchannelInactivityTimeout ⟨⟨0⟩⟩ = 0 ∧
    Streams.GetBackchannelInactivityTimeout ⟨⟨-3⟩⟩ = -3 :=
  ⟨(claimC4_timeout_resolution ⟨⟨5⟩⟩).1 (by decide),
   (claimC4_timeout_resolution ⟨⟨0⟩⟩).2.1 rfl,
   (claimC4_timeout_resolution ⟨⟨-3⟩⟩).2.2 (by decide)⟩

/-- C4 counterexample: a configured value of -1 is returned unchanged, not
resolved to zero as the claim states. -/
theorem claimC4_counterexample :
    Streams.GetBackchannelInactivityTimeout ⟨⟨-1⟩⟩ = -1 ∧ (-1 : Int) ≠ 0 :=
  ⟨rfl, by decide⟩

/-- C7: `Start` observed in `StateConn` (under the entry contract that the
role is a producer role) returns the "start from CONN state" error, performs
no external call (in particular never invokes `Handle`), and leaves the
connection unchanged. -/
theorem claimC7_start_conn (env : Rtsp.Env) (c : Rtsp.Conn)
    (script : List (Except String Unit × Rtsp.ConnState))
    (hmode : c.mode ≠ .ModePassiveConsumer)
    (hstate : c.state = .StateConn) :
    Rtsp.Start env c script = (.error "start from CONN state", c, []) := by
  simp [Rtsp.Start, Rtsp.startLoop, hmode, hstate]

/-- C7 witness: a concrete ActiveProducer connection in `StateConn`. -/
theorem claimC7_witness :
    Rtsp.Start Rtsp.envAllOk ⟨.ModeActiveProducer, .StateConn, [], []⟩ [] =
      (.error "start from CONN state", ⟨.ModeActiveProducer, .StateConn, [], []⟩, []) :=
  claimC7_start_conn _ _ _ (by decide) rfl

/-- C2 (amended): `Start` observed in `StatePlay` (the only state other than
`StateNone`/`StateConn`/`StateSetup`) matches no case of the state switch,
so the zero-value `nil` error is returned: `Start` returns no error at all,
performs no external call (in particular never invokes `Handle`), and leaves
the connection unchanged — no internal-invariant error is raised. -/
theorem claimC2_start_play (env : Rtsp.Env) (c : Rtsp.Conn)
    (script : List (Except String Unit × Rtsp.ConnState))
    (hmode : c.mode ≠ .ModePassiveConsumer)
    (hstate : c.state = .StatePlay) :
    Rtsp.Start env c script = (.ok (), c, []) := by
  simp [Rtsp.Start, Rtsp.startLoop, hmode, hstate]

/-- C2 witness: a concrete ActiveProducer connection in `StatePlay`. -/
theorem claimC2_witness :
    Rtsp.Start Rtsp.envAllOk ⟨.ModeActiveProducer, .StatePlay, [], []⟩ [] =
      (.ok (), ⟨.ModeActiveProducer, .StatePlay, [], []⟩, []) :=
  claimC2_start_play _ _ _ (by decide) rfl

/-- C2 counterexample: on a connection observed in `StatePlay`, `Start`
returns the `nil` error (`Except.ok`), not an internal-invariant error, so
the claim that it "fails with an internal-invariant error rather than
returning nil" is false at this input. -/
theorem claimC2_counterexample :
    Rtsp.Start Rtsp.envAllOk ⟨.ModeActiveProducer, .StatePlay, [], []⟩ [] =
      (.ok (), ⟨.ModeActiveProducer, .StatePlay, [], []⟩, []) := rfl

/-- C5: `Stop` closes every receiver then every sender in registration order
(the closes are unconditional, so no individual close can short-circuit the
pass); then, exactly when the state is not `StateNone`, it moves to
`StateNone` and calls the transport `Close`, returning its result; on an
already-`StateNone` connection it returns the `nil` error and performs no
transport close call. -/
theorem claimC5_stop (env : Rtsp.Env) (c : Rtsp.Conn) :
    (c.state ≠ .StateNone →
      Rtsp.Stop env c = (env.close, { c with state := .StateNone },
        c.receivers.map Rtsp.Call.closeReceiver
          ++ c.senders.map Rtsp.Call.closeSender ++ [.close])) ∧
    (c.state = .StateNone →
      Rtsp.Stop env c = (.ok (), c,
        c.receivers.map Rtsp.Call.closeReceiver
          ++ c.senders.map Rtsp.Call.closeSender)) := by
  constructor <;> intro h <;> simp [Rtsp.Stop, h]

/-- C5 witness: a connection in `StateSetup` with one receiver and one
sender and a failing transport close, and an already-`StateNone` connection
with empty registries. -/
theorem claimC5_witness :
    Rtsp.Stop Rtsp.envCloseErr
        ⟨.ModeActiveProducer, .StateSetup, [Rtsp.recv0], [Rtsp.sender5]⟩ =
      (.error "close failed",
       ⟨.ModeActiveProducer, .StateNone, [Rtsp.recv0], [Rtsp.sender5]⟩,
       [.closeReceiver Rtsp.recv0, .closeSender Rtsp.sender5, .close]) ∧
    Rtsp.Stop Rtsp.envAllOk ⟨.ModeActiveProducer, .StateNone, [], []⟩ =
      (.ok (), ⟨.ModeActiveProducer, .StateNone, [], []⟩, []) :=
  ⟨(claimC5_stop _ _).1 (by decide), (claimC5_stop _ _).2 rfl⟩

/-- C3 (amended): in role PassiveConsumer, `GetTrack` with a media whose
direction is not Recvonly computes the channel `byte(len(senders)) * 2` but
then always fails with the internal-logic error of the common tail: it
returns no track, performs no external call, and leaves state, receivers
and senders unchanged. -/
theorem claimC3_consumer_nonrecv (env : Rtsp.Env) (c : Rtsp.Conn)
    (media : Rtsp.Media) (codec : Rtsp.Codec)
    (hmode : c.mode = .ModePassiveConsumer)
    (hdir : media.direction ≠ .DirectionRecvonly) :
    Rtsp.GetTrack env c media codec =
      (.error ("rtsp: GetTrack internal logic error for mode/direction: "
          ++ Rtsp.Mode.str .ModePassiveConsumer ++ "/" ++ media.direction.str),
       c, []) := by
  unfold Rtsp.GetTrack
  rw [if_neg hdir]
  simp [hmode, Rtsp.getTrackTail, hdir]

/-- C3 counterexample: a concrete PassiveConsumer connection asked for a
Sendonly track receives the internal-logic error, not a new track — the
claim that such a call returns a channel-carrying track "without error" is
false at this input. -/
theorem claimC3_counterexample :
    Rtsp.GetTrack Rtsp.envAllOk ⟨.ModePassiveConsumer, .StateNone, [], []⟩
        Rtsp.mediaSend Rtsp.codecPCMU =
      (.error "rtsp: GetTrack internal logic error for mode/direction: passive consumer/sendonly",
       ⟨.ModePassiveConsumer, .StateNone, [], []⟩, []) := rfl

/-- C3 witness: the amended statement at the same concrete input. -/
theorem claimC3_witness :
    Rtsp.GetTrack Rtsp.envAllOk ⟨.ModePassiveConsumer, .StateNone, [], []⟩
        Rtsp.mediaSend Rtsp.codecPCMU =
      (.error ("rtsp: GetTrack internal logic error for mode/direction: "
          ++ Rtsp.Mode.str .ModePassiveConsumer ++ "/" ++ Rtsp.mediaSend.direction.str),
       ⟨.ModePassiveConsumer, .StateNone, [], []⟩, []) :=
  claimC3_consumer_nonrecv _ _ _ _ rfl (by decide)

/-- Replaying a list of medias on which every `SetupMedia` succeeds issues
one `SetupMedia` call per media, in order, and succeeds. -/
theorem setupAll_ok (env : Rtsp.Env) (ms : List Rtsp.Media)
    (h : ∀ m ∈ ms, ∃ ch, env.setupMedia m = .ok ch) :
    Rtsp.setupAll env ms = (.ok (), ms.map Rtsp.Call.setupMedia) := by
  induction ms with
  | nil => rfl
  | cons m ms ih =>
    obtain ⟨ch, hch⟩ := h m (by simp)
    simp [Rtsp.setupAll, hch, ih fun m2 hm2 => h m2 (by simp [hm2])]

/-- A replay whose decomposition has a first failing media issues exactly
the `SetupMedia` calls up to and including that media, in order, and
surfaces its error; the later medias are never attempted. -/
theorem setupAll_firstFail (env : Rtsp.Env) (ms1 : List Rtsp.Media)
    (m : Rtsp.Media) (ms2 : List Rtsp.Media) (e : String)
    (h1 : ∀ m2 ∈ ms1, ∃ ch, env.setupMedia m2 = .ok ch)
    (h2 : env.setupMedia m = .error e) :
    Rtsp.setupAll env (ms1 ++ m :: ms2) =
      (.error e, (ms1 ++ [m]).map Rtsp.Call.setupMedia) := by
  induction ms1 with
  | nil => simp [Rtsp.setupAll, h2]
  | cons x xs ih =>
    obtain ⟨ch, hch⟩ := h1 x (by simp)
    simp [Rtsp.setupAll, hch, ih fun y hy => h1 y (by simp [hy])]

/-- `Reconnect` never modifies the connection: state, receivers and senders
are returned exactly as received, in every outcome. -/
theorem reconnect_conn_unchanged (env : Rtsp.Env) (c : Rtsp.Conn) :
    (Rtsp.Reconnect env c).2.1 = c := by
  unfold Rtsp.Reconnect
  rcases env.dial with e | u
  · rfl
  · rcases env.describe with e | u2
    · rfl
    · rcases h1 : Rtsp.setupAll env (c.receivers.map fun t => t.media) with ⟨r1, τ1⟩
      rcases h2 : Rtsp.setupAll env (c.senders.map fun s => s.media) with ⟨r2, τ2⟩
      rcases r1 with e1 | u1 <;> rcases r2 with e2 | u2 <;> simp [h1, h2]

/-- C6: `Reconnect` performs Fire, Close (its error ignored), Dial,
Describe, then `SetupMedia` for every receiver in original order followed by
every sender in original order; the first error from Dial, Describe or any
`SetupMedia` is returned without executing any subsequent step (in
particular a Describe failure performs no `SetupMedia` at all), and the
connection — state, receivers and senders — is unchanged in every
outcome. -/
theorem claimC6_reconnect (env : Rtsp.Env) (c : Rtsp.Conn) :
    ((Rtsp.Reconnect env c).2.1 = c) ∧
    (∀ e, env.dial = .error e →
      Rtsp.Reconnect env c =
        (.error e, c, [.fire "RTSP reconnect", .close, .dial])) ∧
    (∀ e, env.dial = .ok () → env.describe = .error e →
      Rtsp.Reconnect env c =
        (.error e, c, [.fire "RTSP reconnect", .close, .dial, .describe])) ∧
    (env.dial = .ok () → env.describe = .ok () →
      (∀ m ∈ c.receivers.map (fun t => t.media), ∃ ch, env.setupMedia m = .ok ch) →
      (∀ m ∈ c.senders.map (fun s => s.media), ∃ ch, env.setupMedia m = .ok ch) →
      Rtsp.Reconnect env c = (.ok (), c,
        [.fire "RTSP reconnect", .close, .dial, .describe]
          ++ (c.receivers.map (fun t => t.media)).map Rtsp.Call.setupMedia
          ++ (c.senders.map (fun s => s.media)).map Rtsp.Call.setupMedia)) ∧
    (∀ ms1 m ms2 e, env.dial = .ok () → env.describe = .ok () →
      c.receivers.map (fun t => t.media) = ms1 ++ m :: ms2 →
      (∀ m2 ∈ ms1, ∃ ch, env.setupMedia m2 = .ok ch) →
      env.setupMedia m = .error e →
      Rtsp.Reconnect env c = (.error e, c,
        [.fire "RTSP reconnect", .close, .dial, .describe]
          ++ (ms1 ++ [m]).map Rtsp.Call.setupMedia)) ∧
    (∀ ms1 m ms2 e, env.dial = .ok () → env.describe = .ok () →
      (∀ m2 ∈ c.receivers.map (fun t => t.media), ∃ ch, env.setupMedia m2 = .ok ch) →
      c.senders.map (fun s => s.media) = ms1 ++ m :: ms2 →
      (∀ m2 ∈ ms1, ∃ ch, env.setupMedia m2 = .ok ch) →
      env.setupMedia m = .error e →
      Rtsp.Reconnect env c = (.error e, c,
        [.fire "RTSP reconnect", .close, .dial, .describe]
          ++ (c.receivers.map (fun t => t.media)).map Rtsp.Call.setupMedia
          ++ (ms1 ++ [m]).map Rtsp.Call.setupMedia)) := by
  refine ⟨reconnect_conn_unchanged env c, ?_, ?_, ?_, ?_, ?_⟩
  · intro e hd
    unfold Rtsp.Reconnect
    simp [hd]
  · intro e hd hde
    unfold Rtsp.Reconnect
    simp [hd, hde]
  · intro hd hde hr hs
    unfold Rtsp.Reconnect
    simp [hd, hde, setupAll_ok env _ hr, setupAll_ok env _ hs]
  · intro ms1 m ms2 e hd hde hsplit h1 h2
    unfold Rtsp.Reconnect
    rw [hsplit]
    simp [hd, hde, setupAll_firstFail env ms1 m ms2 e h1 h2]
  · intro ms1 m ms2 e hd hde hr hsplit h1 h2
    unfold Rtsp.Reconnect
    rw [hsplit]
    simp [hd, hde, setupAll_ok env _ hr, setupAll_firstFail env ms1 m ms2 e h1 h2]

/-- C6 witness: on a connection with receivers for media tags 1 and 2 and a
sender for media tag 3 — a Describe failure replays nothing, and a
`SetupMedia` failure on the second receiver stops after the first receiver's
replay, never touching the sender; the connection is unchanged in both
runs. -/
theorem claimC6_witness :
    Rtsp.Reconnect Rtsp.envNoDescribe Rtsp.connPlay2 =
      (.error "describe failed", Rtsp.connPlay2,
       [.fire "RTSP reconnect", .close, .dial, .describe]) ∧
    Rtsp.Reconnect Rtsp.envSetupFail Rtsp.connPlay2 =
      (.error "setup failed", Rtsp.connPlay2,
       [.fire "RTSP reconnect", .close, .dial, .describe,
        .setupMedia ⟨1, .DirectionRecvonly⟩, .setupMedia ⟨2, .DirectionRecvonly⟩]) :=
  ⟨(claimC6_reconnect Rtsp.envNoDescribe Rtsp.connPlay2).2.2.1 "describe failed" rfl rfl,
   (claimC6_reconnect Rtsp.envSetupFail Rtsp.connPlay2).2.2.2.2.1
     [⟨1, .DirectionRecvonly⟩] ⟨2, .DirectionRecvonly⟩ [] "setup failed" rfl rfl rfl
     (by intro m2 hm2; simp at hm2; subst hm2; exact ⟨6, rfl⟩) rfl⟩

/-- C8: in role ActiveProducer, a `GetTrack` for a Sendonly media that
succeeds at `SetupMedia` (after a successful `Reconnect` when the state was
`StatePlay`) moves the state to `StateSetup` and returns a new track whose
id is the SETUP-assigned channel, registered in neither receivers nor
senders — the registries are exactly those of the incoming connection. -/
theorem claimC8_active_sendonly (env : Rtsp.Env) (c : Rtsp.Conn)
    (media : Rtsp.Media) (codec : Rtsp.Codec) (ch : Nat)
    (hmode : c.mode = .ModeActiveProducer)
    (hdir : media.direction = .DirectionSendonly)
    (hsetup : env.setupMedia media = .ok ch)
    (hrec : c.state = .StatePlay → (Rtsp.Reconnect env c).1 = .ok ()) :
    (Rtsp.GetTrack env c media codec).1 = .ok ⟨media, codec, ch⟩ ∧
    (Rtsp.GetTrack env c media codec).2.1 = { c with state := .StateSetup } := by
  have hdir2 : ¬ media.direction = .DirectionRecvonly := by simp [hdir]
  unfold Rtsp.GetTrack
  rw [if_neg hdir2]
  by_cases hp : c.state = .StatePlay
  · rcases hR : Rtsp.Reconnect env c with ⟨r, c1, τ1⟩
    have hc1 : c1 = c := by
      have h := reconnect_conn_unchanged env c
      rw [hR] at h
      exact h
    have hrok : r = .ok () := by
      have h := hrec hp
      rw [hR] at h
      exact h
    subst hc1
    subst hrok
    simp [hmode, hp, hR, hsetup, hdir, Rtsp.NewReceiver]
  · simp [hmode, hp, hsetup, hdir, Rtsp.NewReceiver]

/-- C8 witness: a concrete ActiveProducer connection in `StateNone` asked
for a Sendonly (backchannel) track gets channel 4 from SETUP, the state
moves to `StateSetup`, and the registries stay empty. -/
theorem claimC8_witness :
    (Rtsp.GetTrack Rtsp.envAllOk ⟨.ModeActiveProducer, .StateNone, [], []⟩
        Rtsp.mediaSend Rtsp.codecPCMU).1 = .ok ⟨Rtsp.mediaSend, Rtsp.codecPCMU, 4⟩ ∧
    (Rtsp.GetTrack Rtsp.envAllOk ⟨.ModeActiveProducer, .StateNone, [], []⟩
        Rtsp.mediaSend Rtsp.codecPCMU).2.1 = ⟨.ModeActiveProducer, .StateSetup, [], []⟩ :=
  claimC8_active_sendonly _ _ _ _ _ rfl rfl rfl (fun h => absurd h (by decide))

/-- In role PassiveConsumer, a Recvonly `GetTrack` that misses the cache
allocates channel `byte(len(receivers) * 2)`, appends the new track to
`receivers` and returns it with no external call. -/
theorem getTrack_consumer_recv (env : Rtsp.Env) (c : Rtsp.Conn)
    (media : Rtsp.Media) (codec : Rtsp.Codec)
    (hmode : c.mode = .ModePassiveConsumer)
    (hdir : media.direction = .DirectionRecvonly)
    (hfind : c.receivers.find?
      (fun t => t.media == media && t.codec.matches codec) = none) :
    Rtsp.GetTrack env c media codec =
      (.ok ⟨media, codec, (c.receivers.length * 2) % 256⟩,
       { c with receivers :=
          c.receivers ++ [⟨media, codec, (c.receivers.length * 2) % 256⟩] },
       []) := by
  unfold Rtsp.GetTrack
  rw [if_pos hdir, hfind]
  simp [hmode, Rtsp.getTrackTail, hdir, Rtsp.NewReceiver]

/-- C9 (amended): in role PassiveConsumer, a Recvonly `GetTrack` that is not
already cached allocates channel `(2 × receiver count) mod 256` — equal to
`2N` for the Nth (0-indexed) track only while the count is below 128 —
appends the new track to `receivers` and returns it without error. -/
theorem claimC9_consumer_alloc (env : Rtsp.Env) (c : Rtsp.Conn)
    (media : Rtsp.Media) (codec : Rtsp.Codec)
    (hmode : c.mode = .ModePassiveConsumer)
    (hdir : media.direction = .DirectionRecvonly)
    (hfind : c.receivers.find?
      (fun t => t.media == media && t.codec.matches codec) = none) :
    Rtsp.GetTrack env c media codec =
      (.ok ⟨media, codec, (c.receivers.length * 2) % 256⟩,
       { c with receivers :=
          c.receivers ++ [⟨media, codec, (c.receivers.length * 2) % 256⟩] },
       []) ∧
    (c.receivers.length < 128 →
      (c.receivers.length * 2) % 256 = c.receivers.length * 2) :=
  ⟨getTrack_consumer_recv env c media codec hmode hdir hfind,
   fun h => Nat.mod_eq_of_lt (by omega)⟩

/-- C9 witness: a PassiveConsumer connection with one cached receiver
allocates channel 2 for the next Recvonly track and registers it. -/
theorem claimC9_witness :
    Rtsp.GetTrack Rtsp.envAllOk
        ⟨.ModePassiveConsumer, .StateNone, [Rtsp.recv0], []⟩
        Rtsp.mediaRecv Rtsp.codecPCMU =
      (.ok ⟨Rtsp.mediaRecv, Rtsp.codecPCMU, 2⟩,
       ⟨.ModePassiveConsumer, .StateNone,
        [Rtsp.recv0, ⟨Rtsp.mediaRecv, Rtsp.codecPCMU, 2⟩], []⟩,
       []) ∧
    (1 * 2) % 256 = 1 * 2 :=
  ⟨(claimC9_consumer_alloc Rtsp.envAllOk
      ⟨.ModePassiveConsumer, .StateNone, [Rtsp.recv0], []⟩
      Rtsp.mediaRecv Rtsp.codecPCMU rfl rfl (by decide)).1,
   (claimC9_consumer_alloc Rtsp.envAllOk
      ⟨.ModePassiveConsumer, .StateNone, [Rtsp.recv0], []⟩
      Rtsp.mediaRecv Rtsp.codecPCMU rfl rfl (by decide)).2 (by decide)⟩

set_option maxRecDepth 8000 in
/-- C9 counterexample: with 128 receivers already registered, the next
Recvonly track is assigned channel 0, not `2 × 128 = 256` — the claim's
unqualified `2 × count` formula is false at this input. -/
theorem claimC9_counterexample :
    (Rtsp.GetTrack Rtsp.envAllOk Rtsp.conn128 Rtsp.mediaRecv Rtsp.codecPCMU).1 =
      .ok ⟨Rtsp.mediaRecv, Rtsp.codecPCMU, 0⟩ ∧ (0 : Nat) ≠ 128 * 2 :=
  ⟨rfl, by decide⟩

/-- C10: PassiveConsumer channel allocation stores the channel in a byte,
so the allocated channel is `(count × 2) mod 256`: with exactly 128
receivers the next track receives channel 0 (colliding with the channel of
a first track allocated from an empty registry), with 128 or more receivers
the allocated value always differs from the nominal `2N`, and the `2N`
formula holds exactly while the count stays below 128. -/
theorem claimC10_byte_wrap (env : Rtsp.Env) (c : Rtsp.Conn)
    (media : Rtsp.Media) (codec : Rtsp.Codec)
    (hmode : c.mode = .ModePassiveConsumer)
    (hdir : media.direction = .DirectionRecvonly)
    (hfind : c.receivers.find?
      (fun t => t.media == media && t.codec.matches codec) = none) :
    ((Rtsp.GetTrack env c media codec).1 =
      .ok ⟨media, codec, (c.receivers.length * 2) % 256⟩) ∧
    (c.receivers.length = 128 →
      (Rtsp.GetTrack env c media codec).1 = .ok ⟨media, codec, 0⟩) ∧
    (128 ≤ c.receivers.length →
      (c.receivers.length * 2) % 256 ≠ c.receivers.length * 2) ∧
    (c.receivers.length < 128 →
      (c.receivers.length * 2) % 256 = c.receivers.length * 2) := by
  have h := getTrack_consumer_recv env c media codec hmode hdir hfind
  refine ⟨by rw [h], fun h128 => ?_, fun h128 => by omega,
    fun h128 => Nat.mod_eq_of_lt (by omega)⟩
  rw [h, h128]

set_option maxRecDepth 8000 in
/-- C10 witness: the wrap at exactly 128 registered receivers — the next
allocated channel is 0, and `(128 × 2) mod 256` differs from `2 × 128`. -/
theorem claimC10_witness :
    (Rtsp.GetTrack Rtsp.envAllOk Rtsp.conn128 Rtsp.mediaRecv Rtsp.codecPCMU).1 =
      .ok ⟨Rtsp.mediaRecv, Rtsp.codecPCMU, 0⟩ ∧
    (128 * 2) % 256 ≠ 128 * 2 := by
  have h := claimC10_byte_wrap Rtsp.envAllOk Rtsp.conn128
    Rtsp.mediaRecv Rtsp.codecPCMU rfl rfl (by decide)
  exact ⟨h.2.1 (by decide), h.2.2.1 (by decide)⟩

/-- The fast path of `GetTrack`: a Recvonly media found in `receivers`
(matching Media identity and compatible codec) is returned as-is, with no
external call and an unchanged connection. -/
theorem getTrack_cached (env : Rtsp.Env) (c : Rtsp.Conn)
    (media : Rtsp.Media) (codec : Rtsp.Codec) (t : Rtsp.Receiver)
    (hdir : media.direction = .DirectionRecvonly)
    (hfind : c.receivers.find?
      (fun t2 => t2.media == media && t2.codec.matches codec) = some t) :
    Rtsp.GetTrack env c media codec = (.ok t, c, []) := by
  unfold Rtsp.GetTrack
  rw [if_pos hdir, hfind]

/-- `find?` on a list extended by one element: when the test fails on every
original element and succeeds on the appended one, the appended element is
found. -/
theorem find?_append_singleton {α : Type} (l : List α) (x : α) (q : α → Bool)
    (h : ∀ y ∈ l, q y = false) (hx : q x = true) :
    (l ++ [x]).find? q = some x := by
  induction l with
  | nil => simp [List.find?, hx]
  | cons a as ih =>
    rw [List.cons_append, List.find?_cons_of_neg _ (by simp [h a (by simp)])]
    exact ih fun y hy => h y (by simp [hy])

/-- First negotiation of a Recvonly media by an ActiveProducer not in
`StatePlay`: one `SetupMedia` call, state moves to `StateSetup`, and the new
track (carrying the SETUP-assigned channel) is appended to `receivers`. -/
theorem getTrack_active_recv_fresh (env : Rtsp.Env) (c : Rtsp.Conn)
    (media : Rtsp.Media) (codec : Rtsp.Codec) (ch : Nat)
    (hdir : media.direction = .DirectionRecvonly)
    (hmode : c.mode = .ModeActiveProducer)
    (hstate : c.state ≠ .StatePlay)
    (hfind : c.receivers.find?
      (fun t => t.media == media && t.codec.matches codec) = none)
    (hsetup : env.setupMedia media = .ok ch) :
    Rtsp.GetTrack env c media codec =
      (.ok ⟨media, codec, ch⟩,
       { c with state := .StateSetup,
                receivers := c.receivers ++ [⟨media, codec, ch⟩] },
       [.setupMedia media]) := by
  unfold Rtsp.GetTrack
  rw [if_pos hdir, hfind]
  simp [hmode, hstate, hsetup, Rtsp.getTrackTail, hdir, Rtsp.NewReceiver]

/-- C1: for a sequence of `GetTrack` calls passing the same (previously
unseen) Recvonly Media reference, each with a codec the first call's codec
is compatible with, only the first call performs a SETUP (`SetupMedia`) —
the whole sequence's trace contains exactly one `SetupMedia` call — and
every subsequent call returns the identical cached receiver, leaving state,
receivers and senders exactly as the first call left them. -/
theorem claimC1_idempotent (env : Rtsp.Env) (c : Rtsp.Conn)
    (media : Rtsp.Media) (codec : Rtsp.Codec) (codecs : List Rtsp.Codec)
    (ch : Nat)
    (hdir : media.direction = .DirectionRecvonly)
    (hmode : c.mode = .ModeActiveProducer)
    (hstate : c.state ≠ .StatePlay)
    (hfresh : ∀ t ∈ c.receivers, t.media ≠ media)
    (hsetup : env.setupMedia media = .ok ch)
    (hcompat : ∀ k ∈ codecs, codec.matches k = true) :
    Rtsp.getTrackSeq env media c (codec :: codecs) =
      ((.ok ⟨media, codec, ch⟩) ::
         List.replicate codecs.length (.ok ⟨media, codec, ch⟩),
       { c with state := .StateSetup,
                receivers := c.receivers ++ [⟨media, codec, ch⟩] },
       [.setupMedia media]) ∧
    Rtsp.countSetup (Rtsp.getTrackSeq env media c (codec :: codecs)).2.2 = 1 := by
  have hfind : c.receivers.find?
      (fun t => t.media == media && t.codec.matches codec) = none := by
    rw [List.find?_eq_none]
    intro t ht hcontra
    rw [Bool.and_eq_true] at hcontra
    exact hfresh t ht (by simpa using hcontra.1)
  have hfirst := getTrack_active_recv_fresh env c media codec ch
    hdir hmode hstate hfind hsetup
  have htail : ∀ ks, (∀ k ∈ ks, codec.matches k = true) →
      Rtsp.getTrackSeq env media
          { c with state := .StateSetup,
                   receivers := c.receivers ++ [(⟨media, codec, ch⟩ : Rtsp.Receiver)] } ks =
        (List.replicate ks.length (.ok ⟨media, codec, ch⟩),
         { c with state := .StateSetup,
                  receivers := c.receivers ++ [(⟨media, codec, ch⟩ : Rtsp.Receiver)] },
         []) := by
    intro ks
    induction ks with
    | nil => intro _; rfl
    | cons k ks ih =>
      intro hks
      have hfound : (c.receivers ++ [(⟨media, codec, ch⟩ : Rtsp.Receiver)]).find?
          (fun t => t.media == media && t.codec.matches k) =
            some ⟨media, codec, ch⟩ := by
        apply find?_append_singleton
        · intro y hy
          simp [hfresh y hy]
        · simp [hks k (by simp)]
      have hcall := getTrack_cached env
        { c with state := .StateSetup,
                 receivers := c.receivers ++ [(⟨media, codec, ch⟩ : Rtsp.Receiver)] }
        media k ⟨media, codec, ch⟩ hdir hfound
      simp [Rtsp.getTrackSeq, hcall, ih fun k2 hk2 => hks k2 (by simp [hk2]),
        List.replicate_succ]
  refine ⟨?_, ?_⟩ <;>
    simp [Rtsp.getTrackSeq, hfirst, htail codecs hcompat,
      Rtsp.countSetup, Rtsp.Call.isSetupMedia]

/-- C1 witness: first call negotiates channel 4 for a fresh Recvonly media
and registers it; the second call with a compatible codec returns the same
cached track, with exactly one `SetupMedia` in the whole trace. -/
theorem claimC1_witness :
    Rtsp.getTrackSeq Rtsp.envAllOk Rtsp.mediaRecv
        ⟨.ModeActiveProducer, .StateNone, [], []⟩
        [Rtsp.codecPCMU, Rtsp.codecPCMU] =
      ([.ok ⟨Rtsp.mediaRecv, Rtsp.codecPCMU, 4⟩,
        .ok ⟨Rtsp.mediaRecv, Rtsp.codecPCMU, 4⟩],
       ⟨.ModeActiveProducer, .StateSetup,
        [⟨Rtsp.mediaRecv, Rtsp.codecPCMU, 4⟩], []⟩,
       [.setupMedia Rtsp.mediaRecv]) ∧
    Rtsp.countSetup (Rtsp.getTrackSeq Rtsp.envAllOk Rtsp.mediaRecv
        ⟨.ModeActiveProducer, .StateNone, [], []⟩
        [Rtsp.codecPCMU, Rtsp.codecPCMU]).2.2 = 1 :=
  claimC1_idempotent Rtsp.envAllOk ⟨.ModeActiveProducer, .StateNone, [], []⟩
    Rtsp.mediaRecv Rtsp.codecPCMU [Rtsp.codecPCMU] 4
    rfl rfl (by decide) (by simp) rfl (by decide)
